import Mathlib

/-!
# Verification of the lanternfly image upload service (`src/app.py`)

Shallow embedding of the Flask application in `src/app.py`: the naming
helper `timestamped_name` (built on werkzeug's `secure_filename`), the
mimetype check `is_image`, the upload and gallery handlers, the startup
container bootstrap, and the transport-level payload limit.

Conventions of the embedding:
* The process runs on a POSIX host (`os.sep = '/'`, `os.path.altsep = None`,
  `os.name = "posix"`), as the service does on its Linux app host.
* Unicode NFKD normalization (`unicodedata.normalize("NFKD", ·)`) is an
  external table-driven step; functions that use it take it as an explicit
  parameter `nfkd : String → String`.  On strings of ASCII characters NFKD
  is the identity, so concrete evaluations below use `id` together with an
  ASCII-only input.
* Wall-clock time (`datetime.utcnow()`) is passed in as an explicit
  `DateTime` value.
* The Azure blob store is passed in as an explicit effect result
  (`Except String ·`): `.error msg` models the client raising an exception
  whose `str` is `msg`.
-/

namespace App

/-- A (UTC) wall-clock instant as consumed by `strftime("%Y%m%dT%H%M%S")`:
the six numeric fields the format string reads. -/
structure DateTime where
  year : Nat
  month : Nat
  day : Nat
  hour : Nat
  minute : Nat
  second : Nat

/-- One decimal digit as a character (`'0'`–`'9'`). -/
def digitChar (n : Nat) : Char := Char.ofNat (48 + n % 10)

/-- Decimal digits, most significant first; `fuel` bounds the recursion
depth (any `fuel ≥ n` is enough). -/
def natDigitsAux : Nat → Nat → List Char
  | 0, n => [digitChar n]
  | fuel + 1, n =>
    if n < 10 then [digitChar n] else natDigitsAux fuel (n / 10) ++ [digitChar n]

/-- Decimal digits of `n`, most significant first (as Python's `"%d"`). -/
def natDigits (n : Nat) : List Char := natDigitsAux n n

/-- Zero-pad a digit string on the left to width `w`, as strftime's
`%Y`/`%m`/`%d`/`%H`/`%M`/`%S` directives do. -/
def padZero (w : Nat) (l : List Char) : List Char :=
  List.replicate (w - l.length) '0' ++ l

/-- `datetime.strftime("%Y%m%dT%H%M%S")`: the compact timestamp used by
`timestamped_name` (src/app.py line 58). -/
def strftime_compact (t : DateTime) : String :=
  ⟨padZero 4 (natDigits t.year) ++ padZero 2 (natDigits t.month) ++
   padZero 2 (natDigits t.day) ++ ['T'] ++ padZero 2 (natDigits t.hour) ++
   padZero 2 (natDigits t.minute) ++ padZero 2 (natDigits t.second)⟩

/-- Characters below codepoint 128, i.e. the ones `str.encode("ascii",
"ignore")` keeps. -/
def isAsciiChar (c : Char) : Bool := c.toNat < 128

/-- Python `str.isspace` restricted to the ASCII range (all that survives
the ascii-ignore encode): TAB, LF, VT, FF, CR, FS, GS, RS, US, SPACE.
`str.split()` with no argument splits on exactly these. -/
def isPySpace (c : Char) : Bool :=
  [9, 10, 11, 12, 13, 28, 29, 30, 31, 32].contains c.toNat

/-- The characters werkzeug's `_filename_ascii_strip_re` pattern
`[^A-Za-z0-9_.-]` keeps: ASCII alphanumerics, `_`, `.`, `-`. -/
def isSafeChar (c : Char) : Bool :=
  (65 ≤ c.toNat && c.toNat ≤ 90) || (97 ≤ c.toNat && c.toNat ≤ 122) ||
  (48 ≤ c.toNat && c.toNat ≤ 57) || c = '_' || c = '.' || c = '-'

/-- A character stripped by `str.strip("._")`. -/
def isStripChar (c : Char) : Bool := c = '.' || c = '_'

/-- Python `s.strip(chars)`: drop characters of the strip set from both
ends. -/
def pyStrip (l : List Char) : List Char :=
  ((l.dropWhile isStripChar).reverse.dropWhile isStripChar).reverse

/-- Python `s.split()` (no separator): maximal runs of non-whitespace;
empty pieces are discarded. -/
def pySplitWs (l : List Char) : List (List Char) :=
  (l.splitOnP isPySpace).filter (· ≠ [])

/-- werkzeug's `secure_filename` on a POSIX host, with the NFKD
normalization step passed in as `nfkd`:

```
filename = unicodedata.normalize("NFKD", filename)
filename = filename.encode("ascii", "ignore").decode("ascii")
for sep in os.sep, os.path.altsep:   # "/" and None on POSIX
    if sep:
        filename = filename.replace(sep, " ")
filename = str(_filename_ascii_strip_re.sub("", "_".join(filename.split()))).strip("._")
```

(The trailing `os.name == "nt"` device-file special case is dead on POSIX.) -/
def secure_filename (nfkd : String → String) (filename : String) : String :=
  let s1 := (nfkd filename).toList
  let s2 := s1.filter isAsciiChar
  let s3 := s2.map fun c => if c = '/' then ' ' else c
  let joined := List.intercalate ['_'] (pySplitWs s3)
  ⟨pyStrip (joined.filter isSafeChar)⟩

/-- `timestamped_name` (src/app.py lines 57–60):
`f"{ts}-{secure_filename(filename)}"` with `ts = utcnow().strftime("%Y%m%dT%H%M%S")`. -/
def timestamped_name (nfkd : String → String) (now : DateTime)
    (filename : String) : String :=
  strftime_compact now ++ "-" ++ secure_filename nfkd filename

/-- Upper-case hexadecimal digit for `n < 16`, as `urllib.parse.quote`
emits. -/
def hexDigit (n : Nat) : Char :=
  if n < 10 then Char.ofNat (48 + n) else Char.ofNat (55 + n % 16)

/-- `%XX` escape of one byte. -/
def percentByte (b : Nat) : List Char :=
  ['%', hexDigit (b / 16 % 16), hexDigit (b % 16)]

/-- UTF-8 bytes of one character (what `str.encode("utf-8")` produces per
code point). -/
def utf8Bytes (c : Char) : List Nat :=
  let n := c.toNat
  if n < 0x80 then [n]
  else if n < 0x800 then [0xC0 + n / 64, 0x80 + n % 64]
  else if n < 0x10000 then
    [0xE0 + n / 4096, 0x80 + n / 64 % 64, 0x80 + n % 64]
  else
    [0xF0 + n / 262144, 0x80 + n / 4096 % 64, 0x80 + n / 64 % 64, 0x80 + n % 64]

/-- Characters `urllib.parse.quote` leaves unescaped with its default
`safe="/"`: the always-safe set (ASCII letters, digits, `_.-~`) plus `/`. -/
def quoteSafe (c : Char) : Bool :=
  (65 ≤ c.toNat && c.toNat ≤ 90) || (97 ≤ c.toNat && c.toNat ≤ 122) ||
  (48 ≤ c.toNat && c.toNat ≤ 57) || c = '_' || c = '.' || c = '-' ||
  c = '~' || c = '/'

/-- `urllib.parse.quote(s)` with default arguments: safe characters pass
through, every other character is UTF-8 encoded and each byte
percent-escaped. -/
def quote (s : String) : String :=
  ⟨s.toList.flatMap fun c =>
    if quoteSafe c then [c] else (utf8Bytes c).flatMap percentByte⟩

/-- One part of `request.files`: a `FileStorage` as the upload handler
reads it — its `filename`, its declared `mimetype` (absent modelled as
`none`), and its byte stream. -/
structure FilePart where
  filename : String
  mimetype : Option String
  stream : List Nat

/-- The slice of a multipart request the handlers consume: the `"file"`
entry of `request.files` (or `none` when the field is absent) and the
request body size the transport layer compares against
`MAX_CONTENT_LENGTH`. -/
structure UploadRequest where
  file : Option FilePart
  contentLength : Nat

/-- A JSON-envelope HTTP response as the handlers build it: the status
code, the `ok` flag, and the optional `error`/`url`/`gallery` payload
fields. -/
structure HttpResponse where
  status : Nat
  ok : Bool
  error : Option String
  url : Option String
  gallery : Option (List String)
  deriving DecidableEq

/-- A blob write performed against the container client: the blob name,
the bytes, and the `content_type` metadata passed in `ContentSettings`. -/
structure BlobWrite where
  name : String
  bytes : List Nat
  contentType : Option String
  deriving DecidableEq

/-- Python's `str.startswith`: a prefix test on the character sequence. -/
def pyStartsWith (s pre : String) : Bool := pre.toList.isPrefixOf s.toList

/-- `is_image` (src/app.py lines 53–54):
`(file.mimetype or "").startswith("image/")` — a `None` (or empty)
mimetype is treated as `""`. -/
def is_image (f : FilePart) : Bool :=
  pyStartsWith (f.mimetype.getD "") "image/"

/-- `app.config["MAX_CONTENT_LENGTH"] = 10 * 1024 * 1024` (src/app.py
line 31). -/
def MAX_CONTENT_LENGTH : Nat := 10 * 1024 * 1024

/-- `container_url = f"{STORAGE_ACCOUNT_URL}/{IMAGES_CONTAINER}"`
(src/app.py line 46). -/
def container_url (storage_account_url images_container : String) : String :=
  storage_account_url ++ "/" ++ images_container

/-- The `upload` handler (src/app.py lines 67–91).  `store` is the blob
client's `upload_blob` effect: `.error msg` models it raising an exception
with `str(e) = msg`.  Returns the response together with the list of blob
writes issued (each `upload_blob` call, whether or not it raised). -/
def upload (nfkd : String → String) (now : DateTime) (base_url : String)
    (store : BlobWrite → Except String Unit) (req : UploadRequest) :
    HttpResponse × List BlobWrite :=
  match req.file with
  | none => (⟨400, false, some "Missing file", none, none⟩, [])
  | some f =>
    if f.filename = "" then
      (⟨400, false, some "Empty filename", none, none⟩, [])
    else if ¬ is_image f then
      (⟨415, false, some "Only image/* allowed", none, none⟩, [])
    else
      let blob_name := timestamped_name nfkd now f.filename
      let w : BlobWrite := ⟨blob_name, f.stream, f.mimetype⟩
      match store w with
      | .error e => (⟨500, false, some e, none, none⟩, [w])
      | .ok _ =>
        let url := base_url ++ "/" ++ quote blob_name
        (⟨200, true, none, some url, none⟩, [w])

/-- The transport layer in front of `upload`: Flask/werkzeug reject a body
larger than `MAX_CONTENT_LENGTH` with 413 before the view function runs.
Modelled from the spec: this enforcement lives in the hosting framework,
not in src/app.py, which only sets the limit. -/
def handle_upload (nfkd : String → String) (now : DateTime)
    (base_url : String) (store : BlobWrite → Except String Unit)
    (req : UploadRequest) : HttpResponse × List BlobWrite :=
  if req.contentLength > MAX_CONTENT_LENGTH then
    (⟨413, false, some "Request Entity Too Large", none, none⟩, [])
  else
    upload nfkd now base_url store req

/-- The `gallery` handler (src/app.py lines 94–102).  `listing` is the
result of `cc.list_blobs()`: the blob names, or `.error msg` for a raised
exception with `str(e) = msg`.  `blobs.sort(reverse=True)` is Python's
stable sort in descending lexicographic order, embedded as insertion sort
by `≥` (names being strings, equal keys are identical, so the lists
agree). -/
def gallery (base_url : String) (listing : Except String (List String)) :
    HttpResponse :=
  match listing with
  | .error e => ⟨500, false, some e, none, none⟩
  | .ok names =>
    let blobs := names.map fun n => base_url ++ "/" ++ quote n
    let sorted := blobs.insertionSort (· ≥ ·)
    ⟨200, true, none, none, some sorted⟩

/-- The `health` handler (src/app.py lines 105–107): a constant
`Response("OK", status=200)`. -/
def health : Nat × String := (200, "OK")

/-- The container-level public access modes of `azure.storage.blob.PublicAccess`. -/
inductive PublicAccessLevel where
  | blob
  | container
  deriving DecidableEq

/-- Outcome of the container client's `create_container` call: success,
the `ResourceExistsError` raised when the container already exists, or any
other exception. -/
inductive CreateOutcome where
  | ok
  | resourceExists
  | otherError (msg : String)

/-- The startup bootstrap (src/app.py lines 41–44):

```
try:
    cc.create_container(public_access=PublicAccess.Blob)
except ResourceExistsError:
    pass
```

Returns `.ok` when the process continues to start and `.error` when the
exception escapes and aborts startup; the second component records the
`public_access` argument passed to `create_container`. -/
def startup_create_container (outcome : CreateOutcome) :
    Except String Unit × PublicAccessLevel :=
  (match outcome with
   | .ok => .ok ()
   | .resourceExists => .ok ()
   | .otherError msg => .error msg,
   PublicAccessLevel.blob)

/-! ## Sanity checks of the embedding against the Python behaviour -/

theorem secure_filename_checks :
    secure_filename id "etc/passwd" = "etc_passwd" ∧
    secure_filename id ".." = "" ∧
    secure_filename id "my photo (1).jpg" = "my_photo_1.jpg" ∧
    secure_filename id "a\\b.png" = "ab.png" := by
  refine ⟨by decide, by decide, by decide, by decide⟩

theorem timestamped_name_check :
    timestamped_name id ⟨2024, 1, 2, 3, 4, 5⟩ "cat.png"
      = "20240102T030405-cat.png" := by decide

theorem quote_checks :
    quote "a b.png" = "a%20b.png" ∧ quote "é" = "%C3%A9" :=
  ⟨by decide, by decide⟩

/-! ## Helper lemmas -/

/-- Every character of a `pyStrip`ped list is a character of the list. -/
theorem mem_of_mem_pyStrip {c : Char} {l : List Char} (h : c ∈ pyStrip l) :
    c ∈ l := by
  unfold pyStrip at h
  rw [List.mem_reverse] at h
  have h2 := (List.dropWhile_sublist isStripChar).mem h
  rw [List.mem_reverse] at h2
  exact (List.dropWhile_sublist isStripChar).mem h2

/-- Every character of `secure_filename`'s output survives the final
`[^A-Za-z0-9_.-]` strip, so it is in the safe set. -/
theorem secure_filename_safe (nfkd : String → String) (fn : String) :
    ∀ c ∈ (secure_filename nfkd fn).toList, isSafeChar c := by
  intro c hc
  simp only [secure_filename] at hc
  exact (List.mem_filter.mp (mem_of_mem_pyStrip hc)).2

/-- `digitChar` always lands in `'0'`–`'9'`, hence in the safe set. -/
theorem isSafeChar_digitChar (n : Nat) : isSafeChar (digitChar n) := by
  have h : ∀ m, m < 10 → isSafeChar (Char.ofNat (48 + m)) := by decide
  exact h (n % 10) (Nat.mod_lt _ (by omega))

/-- All characters produced by `natDigitsAux` are decimal digits, hence
safe. -/
theorem natDigitsAux_safe (fuel : Nat) :
    ∀ n, ∀ c ∈ natDigitsAux fuel n, isSafeChar c := by
  induction fuel with
  | zero =>
    intro n c hc
    simp only [natDigitsAux, List.mem_singleton] at hc
    exact hc ▸ isSafeChar_digitChar n
  | succ fuel ih =>
    intro n c hc
    simp only [natDigitsAux] at hc
    split at hc
    · simp only [List.mem_singleton] at hc
      exact hc ▸ isSafeChar_digitChar n
    · rcases List.mem_append.mp hc with h | h
      · exact ih _ c h
      · simp only [List.mem_singleton] at h
        exact h ▸ isSafeChar_digitChar n

/-- Characters of a zero-padded digit string are the pad `'0'` or digits
of the underlying number. -/
theorem padZero_safe (w n : Nat) : ∀ c ∈ padZero w (natDigits n), isSafeChar c := by
  intro c hc
  rcases List.mem_append.mp hc with h | h
  · rw [List.eq_of_mem_replicate h]; decide
  · exact natDigitsAux_safe n n c h

/-- Every character of the compact timestamp is a digit or `'T'`, hence
safe. -/
theorem strftime_compact_safe (t : DateTime) :
    ∀ c ∈ (strftime_compact t).toList, isSafeChar c := by
  intro c hc
  simp only [strftime_compact, String.toList, List.append_assoc,
    List.mem_append, List.mem_singleton] at hc
  rcases hc with h | h | h | h | h | h | h
  · exact padZero_safe 4 t.year c h
  · exact padZero_safe 2 t.month c h
  · exact padZero_safe 2 t.day c h
  · rw [h]; decide
  · exact padZero_safe 2 t.hour c h
  · exact padZero_safe 2 t.minute c h
  · exact padZero_safe 2 t.second c h

/-- The character list of a generated object name splits at the
timestamp/filename separator. -/
theorem timestamped_name_toList (nfkd : String → String) (now : DateTime)
    (fn : String) :
    (timestamped_name nfkd now fn).toList
      = (strftime_compact now).toList ++ '-' :: (secure_filename nfkd fn).toList := by
  simp [timestamped_name, String.toList]

/-- Every character of a generated object name is in the safe set
`[A-Za-z0-9_.-]` (timestamp digits, `'T'`, the `'-'` separator, and the
sanitized filename). -/
theorem timestamped_name_safe (nfkd : String → String) (now : DateTime)
    (fn : String) :
    ∀ c ∈ (timestamped_name nfkd now fn).toList, isSafeChar c := by
  intro c hc
  rw [timestamped_name_toList] at hc
  rcases List.mem_append.mp hc with h | h
  · exact strftime_compact_safe now c h
  · rcases List.mem_cons.mp h with h | h
    · rw [h]; decide
    · exact secure_filename_safe nfkd fn c h

/-- Numeric description of the safe character set. -/
theorem safe_toNat {c : Char} (h : isSafeChar c) :
    (65 ≤ c.toNat ∧ c.toNat ≤ 90) ∨ (97 ≤ c.toNat ∧ c.toNat ≤ 122) ∨
    (48 ≤ c.toNat ∧ c.toNat ≤ 57) ∨ c.toNat = 95 ∨ c.toNat = 46 ∨
    c.toNat = 45 := by
  simp only [isSafeChar, Bool.or_eq_true, Bool.and_eq_true,
    decide_eq_true_eq] at h
  rcases h with ((((h | h) | h) | rfl) | rfl) | rfl
  · exact .inl h
  · exact .inr (.inl h)
  · exact .inr (.inr (.inl h))
  · decide
  · decide
  · decide

/-- A safe character is not a path separator, not a C0 control character,
and not DEL. -/
theorem clean_of_safe {c : Char} (h : isSafeChar c) :
    c ≠ '/' ∧ c ≠ '\\' ∧ 31 < c.toNat ∧ c.toNat ≠ 127 := by
  have hp := safe_toNat h
  refine ⟨fun hc => ?_, fun hc => ?_, by omega, by omega⟩
  · subst hc; revert hp; decide
  · subst hc; revert hp; decide

/-- A safe character is left untouched by `urllib.parse.quote`. -/
theorem quoteSafe_of_isSafeChar {c : Char} (h : isSafeChar c) : quoteSafe c := by
  simp only [isSafeChar, Bool.or_eq_true, Bool.and_eq_true,
    decide_eq_true_eq] at h
  simp only [quoteSafe, Bool.or_eq_true, Bool.and_eq_true, decide_eq_true_eq]
  tauto

/-- `quote`'s character expansion is the identity on safe characters. -/
theorem flatMap_quote_eq_self {l : List Char} (h : ∀ c ∈ l, quoteSafe c) :
    (l.flatMap fun c =>
      if quoteSafe c then [c] else (utf8Bytes c).flatMap percentByte) = l := by
  induction l with
  | nil => rfl
  | cons c l ih =>
    rw [List.flatMap_cons, if_pos (h c (List.mem_cons_self c l)),
      ih fun d hd => h d (List.mem_cons_of_mem c hd)]
    rfl

/-- `urllib.parse.quote` is the identity on strings of safe characters. -/
theorem quote_eq_self_of_safe {s : String} (h : ∀ c ∈ s.toList, quoteSafe c) :
    quote s = s := by
  unfold quote
  rw [flatMap_quote_eq_self h]
  rfl

/-- Appending a common prefix preserves strict lexicographic comparison of
character lists. -/
theorem lex_append_left {a b : List Char} :
    ∀ s : List Char, List.Lex (· < ·) a b → List.Lex (· < ·) (s ++ a) (s ++ b)
  | [], h => h
  | _ :: s, h => List.Lex.cons (lex_append_left s h)

/-- Appending a common prefix preserves strict lexicographic comparison of
strings. -/
theorem string_append_lt {a b : String} (s : String) (h : a < b) :
    s ++ a < s ++ b := by
  rw [String.lt_iff_toList_lt] at h ⊢
  have hl : ∀ t : String, (s ++ t).toList = s.toList ++ t.toList := by
    intro t; simp [String.toList]
  rw [hl a, hl b]
  exact lex_append_left s.toList h

/-! ## Claim theorems -/

/-- Claim C1: the upload handler validates in order, short-circuiting on
the first failure — a missing `file` field yields HTTP 400 `ok:false`
"Missing file"; otherwise an empty filename yields HTTP 400 `ok:false`
"Empty filename"; otherwise a declared content type not starting with
`image/` yields HTTP 415 `ok:false` — and no blob write is issued on any
of these paths. -/
theorem upload_validates_in_order (nfkd : String → String) (now : DateTime)
    (base_url : String) (store : BlobWrite → Except String Unit)
    (req : UploadRequest) :
    (req.file = none →
      upload nfkd now base_url store req
        = (⟨400, false, some "Missing file", none, none⟩, [])) ∧
    (∀ f, req.file = some f → f.filename = "" →
      upload nfkd now base_url store req
        = (⟨400, false, some "Empty filename", none, none⟩, [])) ∧
    (∀ f, req.file = some f → f.filename ≠ "" → is_image f = false →
      upload nfkd now base_url store req
        = (⟨415, false, some "Only image/* allowed", none, none⟩, [])) := by
  refine ⟨fun h => ?_, fun f hf h1 => ?_, fun f hf h1 h2 => ?_⟩ <;>
    simp [upload, *]

/-- Witness for C1 at three concrete requests: field absent, filename
`""`, and content type `text/plain`. -/
theorem upload_validates_in_order_witness :
    upload id ⟨2024, 1, 2, 3, 4, 5⟩ "https://acct/c" (fun _ => .ok ())
        ⟨none, 7⟩
      = (⟨400, false, some "Missing file", none, none⟩, []) ∧
    upload id ⟨2024, 1, 2, 3, 4, 5⟩ "https://acct/c" (fun _ => .ok ())
        ⟨some ⟨"", some "image/png", [1]⟩, 7⟩
      = (⟨400, false, some "Empty filename", none, none⟩, []) ∧
    upload id ⟨2024, 1, 2, 3, 4, 5⟩ "https://acct/c" (fun _ => .ok ())
        ⟨some ⟨"notes.txt", some "text/plain", [1]⟩, 7⟩
      = (⟨415, false, some "Only image/* allowed", none, none⟩, []) := by
  refine ⟨?_, ?_, ?_⟩
  · exact (upload_validates_in_order id ⟨2024, 1, 2, 3, 4, 5⟩ "https://acct/c"
      (fun _ => .ok ()) ⟨none, 7⟩).1 rfl
  · exact (upload_validates_in_order id ⟨2024, 1, 2, 3, 4, 5⟩ "https://acct/c"
      (fun _ => .ok ()) ⟨some ⟨"", some "image/png", [1]⟩, 7⟩).2.1 _ rfl rfl
  · exact (upload_validates_in_order id ⟨2024, 1, 2, 3, 4, 5⟩ "https://acct/c"
      (fun _ => .ok ()) ⟨some ⟨"notes.txt", some "text/plain", [1]⟩, 7⟩).2.2 _
      rfl (by decide) (by decide)

/-- Claim C2, counterexample: on the ASCII filename `".."` (where NFKD is
the identity) sanitization yields the empty string and no fallback token
is substituted — the generated name is the bare timestamp followed by
`'-'`, so the part after the timestamp segment is empty, contradicting
"the result after the timestamp segment is never empty". -/
theorem timestamped_name_empty_tail :
    timestamped_name id ⟨2024, 1, 2, 3, 4, 5⟩ ".." = "20240102T030405-" ∧
    secure_filename id ".." = "" := by
  exact ⟨by decide, by decide⟩

/-- Claim C2 as amended: the Naming Function returns
`<timestamp>-<sanitized>` where the sanitized part contains only
characters from `[A-Za-z0-9_.-]` (path separators, control characters and
URL/storage-unsafe characters are stripped); but when sanitization yields
the empty string no fallback token is applied, so the part after the
timestamp segment may be empty. -/
theorem timestamped_name_shape (nfkd : String → String) (now : DateTime)
    (fn : String) :
    timestamped_name nfkd now fn
      = strftime_compact now ++ "-" ++ secure_filename nfkd fn ∧
    ∀ c ∈ (secure_filename nfkd fn).toList, isSafeChar c :=
  ⟨rfl, secure_filename_safe nfkd fn⟩

/-- Witness for C2's amended theorem at a concrete filename and
character. -/
theorem timestamped_name_shape_witness :
    timestamped_name id ⟨2024, 1, 2, 3, 4, 5⟩ "cat.png"
      = strftime_compact ⟨2024, 1, 2, 3, 4, 5⟩ ++ "-"
          ++ secure_filename id "cat.png" ∧
    isSafeChar 'c' :=
  ⟨(timestamped_name_shape id ⟨2024, 1, 2, 3, 4, 5⟩ "cat.png").1,
   (timestamped_name_shape id ⟨2024, 1, 2, 3, 4, 5⟩ "cat.png").2 'c' (by decide)⟩

/-- Claim C3: a request whose payload exceeds 10 MiB is rejected by the
transport layer with HTTP 413 before the upload handler runs, and no blob
write is issued. -/
theorem payload_too_large_rejected (nfkd : String → String) (now : DateTime)
    (base_url : String) (store : BlobWrite → Except String Unit)
    (req : UploadRequest) (h : 10 * 1024 * 1024 < req.contentLength) :
    handle_upload nfkd now base_url store req
      = (⟨413, false, some "Request Entity Too Large", none, none⟩, []) := by
  have hmax : MAX_CONTENT_LENGTH < req.contentLength := h
  simp [handle_upload, hmax]

/-- Witness for C3 at a concrete request one byte over the limit. -/
theorem payload_too_large_rejected_witness :
    handle_upload id ⟨2024, 1, 2, 3, 4, 5⟩ "https://acct/c" (fun _ => .ok ())
        ⟨some ⟨"cat.png", some "image/png", [1]⟩, 10485761⟩
      = (⟨413, false, some "Request Entity Too Large", none, none⟩, []) :=
  payload_too_large_rejected id ⟨2024, 1, 2, 3, 4, 5⟩ "https://acct/c"
    (fun _ => .ok ()) ⟨some ⟨"cat.png", some "image/png", [1]⟩, 10485761⟩
    (by decide)

/-- Claim C4: every successful gallery response lists the URLs in
descending lexicographic order; in particular, with stored objects
`20240101T000000-a.jpg` and `20240102T000000-b.jpg`, the URL of the
second precedes the URL of the first. -/
theorem gallery_sorted_descending (base_url : String) (names : List String) :
    ((gallery base_url (.ok names)).gallery.getD []).Sorted (· ≥ ·) ∧
    gallery base_url (.ok ["20240101T000000-a.jpg", "20240102T000000-b.jpg"])
      = ⟨200, true, none, none,
          some [base_url ++ "/" ++ quote "20240102T000000-b.jpg",
                base_url ++ "/" ++ quote "20240101T000000-a.jpg"]⟩ := by
  constructor
  · have : (gallery base_url (.ok names)).gallery
        = some ((names.map fun n => base_url ++ "/" ++ quote n).insertionSort
            (· ≥ ·)) := rfl
    rw [this, Option.getD_some]
    exact List.sorted_insertionSort _ _
  · have hq1 : quote "20240101T000000-a.jpg" = "20240101T000000-a.jpg" := by
      decide
    have hq2 : quote "20240102T000000-b.jpg" = "20240102T000000-b.jpg" := by
      decide
    have hlt : base_url ++ "/" ++ quote "20240101T000000-a.jpg"
        < base_url ++ "/" ++ quote "20240102T000000-b.jpg" := by
      rw [hq1, hq2]
      exact string_append_lt (base_url ++ "/")
        (String.lt_iff_toList_lt.mpr (by decide))
    have hns : ¬ (base_url ++ "/" ++ quote "20240101T000000-a.jpg"
        ≥ base_url ++ "/" ++ quote "20240102T000000-b.jpg") := not_le.mpr hlt
    simp [gallery, List.insertionSort, List.orderedInsert, hns]

/-- Claim C5: when the blob write raises, the upload handler catches the
exception and returns HTTP 500, `ok:false`, with `str(e)` — the gateway's
message — as the error string (the handler is a total function of the
store's outcome: no exception propagates). -/
theorem upload_storage_failure_500 (nfkd : String → String) (now : DateTime)
    (base_url : String) (store : BlobWrite → Except String Unit)
    (req : UploadRequest) (f : FilePart) (e : String)
    (hf : req.file = some f) (h1 : f.filename ≠ "") (h2 : is_image f = true)
    (hs : store ⟨timestamped_name nfkd now f.filename, f.stream, f.mimetype⟩
            = .error e) :
    (upload nfkd now base_url store req).1
      = ⟨500, false, some e, none, none⟩ := by
  simp [upload, hf, h1, h2, hs]

/-- Witness for C5 at a concrete request whose store raises "boom". -/
theorem upload_storage_failure_500_witness :
    (upload id ⟨2024, 1, 2, 3, 4, 5⟩ "https://acct/c" (fun _ => .error "boom")
        ⟨some ⟨"cat.png", some "image/png", [1]⟩, 7⟩).1
      = ⟨500, false, some "boom", none, none⟩ :=
  upload_storage_failure_500 id ⟨2024, 1, 2, 3, 4, 5⟩ "https://acct/c"
    (fun _ => .error "boom") ⟨some ⟨"cat.png", some "image/png", [1]⟩, 7⟩
    ⟨"cat.png", some "image/png", [1]⟩ "boom" rfl (by decide) (by decide) rfl

/-- Claim C6, counterexample: when the listing raises, the gallery handler
returns the gateway's raw exception message `str(e)` verbatim — the error
string varies with the raised message instead of being a fixed generic
one, contradicting "a generic error message (not the gateway's raw
exception message)". -/
theorem gallery_error_passes_raw_message :
    gallery "https://acct/c" (.error "gateway exploded")
      = ⟨500, false, some "gateway exploded", none, none⟩ ∧
    gallery "https://acct/c" (.error "other failure")
      = ⟨500, false, some "other failure", none, none⟩ :=
  ⟨rfl, rfl⟩

/-- Claim C6 as amended: when the listing raises, the gallery handler
returns HTTP 500 with `ok:false` and the gateway's raw exception message
`str(e)` as the error string (the handler is a total function of the
listing outcome: no exception propagates). -/
theorem gallery_storage_failure_500 (base_url : String) (e : String) :
    gallery base_url (.error e) = ⟨500, false, some e, none, none⟩ := rfl

/-- Claim C7: for every filename containing a path separator (`'/'` or
`'\'`) or a control character, the generated object name contains no path
separator and no control character (neither C0 controls below 32 nor
DEL 127). -/
theorem timestamped_name_clean (nfkd : String → String) (now : DateTime)
    (fn : String)
    (_hfn : ∃ c ∈ fn.toList, c = '/' ∨ c = '\\' ∨ c.toNat < 32) :
    ∀ c ∈ (timestamped_name nfkd now fn).toList,
      c ≠ '/' ∧ c ≠ '\\' ∧ 31 < c.toNat ∧ c.toNat ≠ 127 := by
  intro c hc
  exact clean_of_safe (timestamped_name_safe nfkd now fn c hc)

/-- Witness for C7 at the concrete filename `"a/b\x01"` (ASCII, so NFKD is
the identity; its object name is `20240102T030405-a_b`) and the member
character `'a'`. -/
theorem timestamped_name_clean_witness :
    (∃ c ∈ ("a/b\x01" : String).toList, c = '/' ∨ c = '\\' ∨ c.toNat < 32) ∧
    ('a' ≠ '/' ∧ 'a' ≠ '\\' ∧ 31 < 'a'.toNat ∧ 'a'.toNat ≠ 127) :=
  ⟨by decide,
   timestamped_name_clean id ⟨2024, 1, 2, 3, 4, 5⟩ "a/b\x01" (by decide) 'a'
     (by decide)⟩

/-- Claim C8: on a successful upload the response URL is the container
base URL, `'/'`, and the percent-encoded object name, where the object
name is the Naming Function's output — and since that name is made of
quote-safe characters, the URL literally ends with the timestamp segment,
`'-'`, and the sanitized filename. -/
theorem upload_success_url (nfkd : String → String) (now : DateTime)
    (base_url : String) (store : BlobWrite → Except String Unit)
    (req : UploadRequest) (f : FilePart)
    (hf : req.file = some f) (h1 : f.filename ≠ "") (h2 : is_image f = true)
    (hs : store ⟨timestamped_name nfkd now f.filename, f.stream, f.mimetype⟩
            = .ok ()) :
    (upload nfkd now base_url store req).1
      = ⟨200, true, none,
          some (base_url ++ "/" ++ quote (timestamped_name nfkd now f.filename)),
          none⟩ ∧
    base_url ++ "/" ++ quote (timestamped_name nfkd now f.filename)
      = base_url ++ "/"
          ++ (strftime_compact now ++ "-" ++ secure_filename nfkd f.filename) := by
  constructor
  · simp [upload, hf, h1, h2, hs]
  · rw [quote_eq_self_of_safe fun c hc =>
      quoteSafe_of_isSafeChar (timestamped_name_safe nfkd now f.filename c hc)]
    rfl

/-- Witness for C8 at a concrete valid image upload. -/
theorem upload_success_url_witness :
    (upload id ⟨2024, 1, 2, 3, 4, 5⟩ "https://acct/c" (fun _ => .ok ())
        ⟨some ⟨"cat.png", some "image/png", [1]⟩, 7⟩).1
      = ⟨200, true, none,
          some ("https://acct/c" ++ "/"
            ++ quote (timestamped_name id ⟨2024, 1, 2, 3, 4, 5⟩ "cat.png")),
          none⟩ ∧
    "https://acct/c" ++ "/"
        ++ quote (timestamped_name id ⟨2024, 1, 2, 3, 4, 5⟩ "cat.png")
      = "https://acct/c" ++ "/"
          ++ (strftime_compact ⟨2024, 1, 2, 3, 4, 5⟩ ++ "-"
            ++ secure_filename id "cat.png") :=
  upload_success_url id ⟨2024, 1, 2, 3, 4, 5⟩ "https://acct/c"
    (fun _ => .ok ()) ⟨some ⟨"cat.png", some "image/png", [1]⟩, 7⟩
    ⟨"cat.png", some "image/png", [1]⟩ rfl (by decide) (by decide) rfl

/-- Claim C9: at startup the process creates the container with
blob-level public-read access, and a `ResourceExistsError` from
`create_container` is swallowed — both a fresh creation and an
already-existing container let startup continue, while the
`public_access` argument is always `PublicAccess.Blob`. -/
theorem startup_container_bootstrap (outcome : CreateOutcome) :
    startup_create_container .resourceExists = (.ok (), .blob) ∧
    startup_create_container .ok = (.ok (), .blob) ∧
    (startup_create_container outcome).2 = .blob :=
  ⟨rfl, rfl, rfl⟩

/-- Claim C10: a file part with no declared content type (`mimetype` is
`None`) is treated by `is_image` as the empty string — which does not
start with `image/` — so the handler returns HTTP 415 `ok:false` with no
blob write, exactly as for a non-image content type. -/
theorem upload_none_mimetype_415 (nfkd : String → String) (now : DateTime)
    (base_url : String) (store : BlobWrite → Except String Unit)
    (req : UploadRequest) (f : FilePart)
    (hf : req.file = some f) (h1 : f.filename ≠ "") (h2 : f.mimetype = none) :
    f.mimetype.getD "" = "" ∧ is_image f = false ∧
    upload nfkd now base_url store req
      = (⟨415, false, some "Only image/* allowed", none, none⟩, []) := by
  have hgd : f.mimetype.getD "" = "" := by rw [h2]; rfl
  have him : is_image f = false := by
    simp [is_image, hgd, pyStartsWith]
  refine ⟨hgd, him, ?_⟩
  simp [upload, hf, h1, him]

/-- Witness for C10 at a concrete file part with absent mimetype. -/
theorem upload_none_mimetype_415_witness :
    (⟨"cat.png", none, [1]⟩ : FilePart).mimetype.getD "" = "" ∧
    is_image ⟨"cat.png", none, [1]⟩ = false ∧
    upload id ⟨2024, 1, 2, 3, 4, 5⟩ "https://acct/c" (fun _ => .ok ())
        ⟨some ⟨"cat.png", none, [1]⟩, 7⟩
      = (⟨415, false, some "Only image/* allowed", none, none⟩, []) :=
  upload_none_mimetype_415 id ⟨2024, 1, 2, 3, 4, 5⟩ "https://acct/c"
    (fun _ => .ok ()) ⟨some ⟨"cat.png", none, [1]⟩, 7⟩
    ⟨"cat.png", none, [1]⟩ rfl (by decide) rfl

end App
